import Mathlib

/-!
# Future-Self-Gen-AI — verification of the spec's claims

Shallow embedding of the React frontend of the Future-Self career-guidance
app (components `FuturisticChat`, `FuturisticResumeUpload`, `App`, and the
`FutureSelfInterface` chat variant), together with theorems settling the
spec's claims about it.  JavaScript objects become Lean structures, React
`useState` state becomes explicit state records, event handlers become
state-transition functions, and outbound socket emits / HTTP requests become
explicit effect lists.  `Date.now()` timestamps and HTTP outcomes are passed
in as parameters, since they come from the environment.
-/

/-- JavaScript `x || d` for a possibly-absent string `x`: both `undefined`
(`none`) and the empty string are falsy and select the default. -/
def jsOr (o : Option String) (d : String) : String :=
  match o with
  | some s => if s = "" then d else s
  | none => d

/-- JavaScript truthiness of a possibly-absent string (`undefined`/`null`
and `""` are falsy). -/
def jsTruthyStr : Option String → Bool
  | some st => st != ""
  | none => false

/-- JavaScript `s.trim()`: strip leading and trailing whitespace (written
structurally over the character list so that it evaluates inside the
kernel). -/
def jsTrim (s : String) : String :=
  String.mk ((s.data.dropWhile Char.isWhitespace).reverse.dropWhile Char.isWhitespace).reverse

/-! ## FuturisticChat component (src/frontend/src/components/FuturisticChat.jsx) -/

/-- One entry of the chat conversation, as built by `handleSendMessage`,
the `ai_response` handler and `sendViaHttp`: `{role, content, timestamp}`. -/
structure Message where
  role : String
  content : String
  timestamp : Nat
deriving Repr, DecidableEq

/-- The `useState` state of `FuturisticChat` relevant to messaging:
`messages`, `isTyping`, `error`, `showQuickQuestions`, plus the connection
bookkeeping (`isConnected`, `connectionStatus`). -/
structure ChatState where
  messages : List Message
  isTyping : Bool
  error : Option String
  showQuickQuestions : Bool
  isConnected : Bool
  connectionStatus : String
deriving Repr, DecidableEq

/-- `API_URL` in FuturisticChat.jsx. -/
def API_URL : String := "http://localhost:5000/api"

/-- Outbound effects of the chat component: socket emits and the HTTP
fallback request. -/
inductive ChatEffect where
  | emitMessage (message session career : String)
  | emitJoinSession (session : String)
  | httpPost (url message session : String) (timeoutMs : Nat)
deriving Repr, DecidableEq

/-- The shape of an axios rejection as inspected by `handleSendError`:
`error.code`, `error.response?.data?.error`, `error.message`. -/
structure AxiosFailure where
  code : Option String
  responseError : Option String
  message : String
deriving Repr, DecidableEq

/-- Outcome of the `axios.post` in `sendViaHttp`: either a resolved response
whose `data` has fields `success`, `response`, `error`, or a rejection. -/
inductive HttpOutcome where
  | ok (success : Bool) (response : String) (error : Option String)
  | exn (e : AxiosFailure)
deriving Repr, DecidableEq

/-- `error.message?.includes('Network Error')`. -/
def mentionsNetworkError (msg : String) : Bool :=
  (msg.splitOn "Network Error").length > 1

/-- The message chosen by `handleSendError`'s if/else chain. -/
def sendErrorMessage (e : AxiosFailure) : String :=
  if e.code = some "ECONNABORTED" then
    "Request timed out. Please try again."
  else if jsTruthyStr e.responseError then
    jsOr e.responseError ""
  else if mentionsNetworkError e.message then
    "Connection error. Please check your internet and try again."
  else
    "Unable to send message. Please try again."

/-- `handleSendError`: stop the typing indicator and surface a message
(the 5-second auto-dismiss is a separately scheduled `setError(null)`,
modelled by `dismissError`). -/
def handleSendError (e : AxiosFailure) (s : ChatState) : ChatState :=
  { s with isTyping := false, error := some (sendErrorMessage e) }

/-- `sendViaHttp`, applied to the outcome of the POST; `t` is `Date.now()`
at response time. -/
def sendViaHttp (outcome : HttpOutcome) (t : Nat) (s : ChatState) : ChatState :=
  match outcome with
  | .ok success resp err =>
    if success && resp != "" then
      { s with messages := s.messages ++ [⟨"assistant", resp, t⟩],
               error := none, isTyping := false }
    else
      { s with error := some (jsOr err "Failed to get response"), isTyping := false }
  | .exn e => handleSendError e s

/-- `handleSendMessage`.  `sessionId` and `careerPath` mirror the props
(`persona?.career_path`), `socketConnected` mirrors
`socketRef.current && socketRef.current.connected`, `outcome`/`tResp` feed
the HTTP fallback, `tSend` is `Date.now()` at send time.  Returns the new
state and the outbound requests. -/
def handleSendMessage (sessionId : Option String) (careerPath : Option String)
    (socketConnected : Bool) (outcome : HttpOutcome) (tSend tResp : Nat)
    (message : String) (s : ChatState) : ChatState × List ChatEffect :=
  if jsTrim message = "" then (s, [])
  else
    match sessionId with
    | none =>
      ({ s with error := some "Session not found. Please upload your resume first." }, [])
    | some sid =>
      let s1 : ChatState :=
        { s with showQuickQuestions := false,
                 messages := s.messages ++ [⟨"user", message, tSend⟩],
                 isTyping := true, error := none }
      if socketConnected then
        (s1, [.emitMessage message sid (jsOr careerPath "software_engineer")])
      else
        (sendViaHttp outcome tResp s1, [.httpPost (API_URL ++ "/chat") message sid 15000])

/-- The `ai_response` socket handler. -/
def onAiResponse (resp : String) (t : Nat) (s : ChatState) : ChatState :=
  { s with isTyping := false,
           messages := s.messages ++ [⟨"assistant", resp, t⟩],
           error := none }

/-- The `typing` socket handler. -/
def onTypingEvent (status : String) (s : ChatState) : ChatState :=
  { s with isTyping := status == "start" }

/-- The `error` socket handler: `setError(errorData.error || '...')` and
stop typing. -/
def onSocketError (err : Option String) (s : ChatState) : ChatState :=
  { s with error := some (jsOr err "An error occurred. Please try again."),
           isTyping := false }

/-- The `connect` socket handler: mark connected and, when a session id
exists, emit `join_session`. -/
def onConnect (sessionId : Option String) (s : ChatState) : ChatState × List ChatEffect :=
  ({ s with isConnected := true, connectionStatus := "connected", error := none },
   match sessionId with
   | some sid => [.emitJoinSession sid]
   | none => [])

/-- The `disconnect` socket handler. -/
def onDisconnect (s : ChatState) : ChatState :=
  { s with isConnected := false, connectionStatus := "ready" }

/-- The `connect_error` socket handler. -/
def onConnectError (s : ChatState) : ChatState :=
  { s with isConnected := false, connectionStatus := "ready" }

/-- The `✕` button of the error banner: `setError(null)`. -/
def dismissError (s : ChatState) : ChatState := { s with error := none }

/-- The error banner is rendered exactly when `error` is non-null
(`{error && ...}` in the JSX). -/
def errorBannerVisible (s : ChatState) : Bool := s.error.isSome

/-- Payload of an incoming socket event, with the fields the handlers read:
`data.response`, `data.status`, `data.error`, `data.message`. -/
structure SocketPayload where
  response : String
  status : String
  error : Option String
  message : String
deriving Repr, DecidableEq

/-- Dispatch of an incoming socket event to `FuturisticChat`'s registered
handlers (`initializeSocket` registers exactly `connect`, `disconnect`,
`connect_error`, `ai_response`, `typing`, `error`); an event with any other
name has no handler and leaves the component untouched. -/
def dispatchChatEvent (sessionId : Option String) (event : String)
    (p : SocketPayload) (t : Nat) (s : ChatState) : ChatState × List ChatEffect :=
  if event = "connect" then onConnect sessionId s
  else if event = "disconnect" then (onDisconnect s, [])
  else if event = "connect_error" then (onConnectError s, [])
  else if event = "ai_response" then (onAiResponse p.response t s, [])
  else if event = "typing" then (onTypingEvent p.status s, [])
  else if event = "error" then (onSocketError p.error s, [])
  else (s, [])

/-- A generic operation on the chat component's state: a user send (with its
environment: props, connection state, HTTP outcome, clock), an incoming
socket event, or dismissing the error banner. -/
inductive ChatOp where
  | send (sessionId careerPath : Option String) (connected : Bool)
      (outcome : HttpOutcome) (tSend tResp : Nat) (msg : String)
  | socketEvt (sessionId : Option String) (event : String) (p : SocketPayload) (t : Nat)
  | dismiss
deriving Repr

/-- Apply a chat operation to the component state (dropping effects). -/
def applyChatOp : ChatOp → ChatState → ChatState
  | .send sid career conn outcome t1 t2 msg, s =>
      (handleSendMessage sid career conn outcome t1 t2 msg s).1
  | .socketEvt sid evt p t, s => (dispatchChatEvent sid evt p t s).1
  | .dismiss, s => dismissError s

/-- A concrete chat state used as a test input. -/
def chatState0 : ChatState :=
  { messages := [], isTyping := true, error := none,
    showQuickQuestions := true, isConnected := true, connectionStatus := "connected" }

/-! ## FutureSelfInterface component (the tab-based chat variant)

Its messages have shape `{message, sender, id, timestamp, chatMode,
aiPersonality}`; `sendMessage` over a connected socket arms a 20-second
fallback timer whose handle is stored in `window.currentTimeoutId` (plus a
5-second diagnostic timer in `window.checkTimeoutId`); the
`receive_message` / `error` / `disconnect` handlers `clearTimeout` it.  A
stored timeout is modelled by a `pending` flag: firing a cleared (or
already-fired) timer is a no-op, exactly as `clearTimeout` guarantees. -/

/-- A `FutureSelfInterface` message as built by `addMessage`. -/
structure FSMessage where
  message : String
  sender : String
  id : Nat
  timestamp : String
  chatMode : String
  aiPersonality : String
deriving Repr, DecidableEq

/-- The `useState` state of `FutureSelfInterface` relevant to messaging,
plus the two global timer handles (`pending` = armed and not yet cleared
or fired). -/
structure FSState where
  messages : List FSMessage
  messageHistory : List FSMessage
  messageCount : Nat
  lastActivity : Nat
  isTyping : Bool
  messageInput : String
  chatMode : String
  aiPersonality : String
  mainTimeoutPending : Bool
  checkTimeoutPending : Bool
  fallbackPending : Bool
deriving Repr, DecidableEq

/-- `addMessage(message, sender)`: append to `messages` and
`messageHistory`, bump `messageCount`, refresh `lastActivity`.  `idv` is
`Date.now()`, `ts` the ISO timestamp string. -/
def addMessage (msg sender : String) (idv : Nat) (ts : String) (now : Nat)
    (s : FSState) : FSState :=
  let m : FSMessage := ⟨msg, sender, idv, ts, s.chatMode, s.aiPersonality⟩
  { s with messages := s.messages ++ [m],
           messageHistory := s.messageHistory ++ [m],
           messageCount := s.messageCount + 1,
           lastActivity := now }

/-- The payload of the socket `message` emit in `sendMessage`. -/
structure FSEmit where
  session_id : String
  message : String
  conversation_id : Option String
  career : String
  chat_mode : String
  ai_personality : String
deriving Repr, DecidableEq

/-- `sendMessage`: adds the user message; over a connected socket it starts
typing, arms the 20 s and 5 s timers and emits `message`; otherwise it arms
the offline canned-reply timer.  Clears the input box in both cases. -/
def sendMessageFS (sessionId : String) (conversationId : Option String)
    (career : String) (connected : Bool) (idv : Nat) (ts : String) (now : Nat)
    (s : FSState) : FSState × List FSEmit :=
  if jsTrim s.messageInput = "" then (s, [])
  else
    let s1 := addMessage s.messageInput "user" idv ts now s
    if connected then
      ({ s1 with isTyping := true, mainTimeoutPending := true,
                 checkTimeoutPending := true, messageInput := "" },
       [⟨sessionId, s.messageInput, conversationId, career, s.chatMode, s.aiPersonality⟩])
    else
      ({ s1 with isTyping := true, fallbackPending := true, messageInput := "" }, [])

/-- The canned message appended when the 20-second response timer fires. -/
def canned20sMessage : String :=
  "I'm taking longer than usual to respond. This might be due to high server load. Please try asking me something else or wait a moment."

/-- The 20-second timer callback: only runs if the timer was not cleared;
stops typing and appends the canned reply. -/
def fireMainTimeout (idv : Nat) (ts : String) (now : Nat) (s : FSState) : FSState :=
  if s.mainTimeoutPending then
    addMessage canned20sMessage "future-self" idv ts now
      { s with isTyping := false, mainTimeoutPending := false }
  else s

/-- The canned replies used by the offline fallback of `sendMessage`. -/
def fallbackResponses : List String :=
  ["That's a great question! The journey has been challenging but rewarding. I've learned so much about technology and grown both personally and professionally.",
   "I remember asking myself that same question 10 years ago. The path wasn't always clear, but persistence paid off.",
   "Looking back, I can see how each decision led me to where I am today. What specific aspect interests you most?",
   "The industry has changed so much since I started. Let me share what I've learned along the way."]

/-- The offline fallback timer callback (`randIdx` models
`Math.floor(Math.random() * responses.length)`). -/
def fireFallbackTimeout (randIdx : Nat) (idv : Nat) (ts : String) (now : Nat)
    (s : FSState) : FSState :=
  if s.fallbackPending then
    { addMessage (fallbackResponses.getD (randIdx % fallbackResponses.length) "")
        "future-self" idv ts now { s with fallbackPending := false } with
      isTyping := false }
  else s

/-- The `receive_message` socket handler (`handleReceiveMessage`): clears
both timers, appends the reply as a `future-self` message, stops typing. -/
def handleReceiveMessage (p : SocketPayload) (idv : Nat) (ts : String) (now : Nat)
    (s : FSState) : FSState :=
  { addMessage p.message "future-self" idv ts now
      { s with mainTimeoutPending := false, checkTimeoutPending := false } with
    isTyping := false }

/-- The `error` socket handler (`handleError`): clears the main timer, stops
typing, appends an apologetic `future-self` message. -/
def handleErrorFS (err : Option String) (idv : Nat) (ts : String) (now : Nat)
    (s : FSState) : FSState :=
  addMessage ("Sorry, I encountered an error: " ++ jsOr err "Unknown error" ++ ". Please try again.")
    "future-self" idv ts now
    { s with mainTimeoutPending := false, isTyping := false }

/-- The `disconnect` socket handler (`handleDisconnect`): clears the main
timer and stops typing. -/
def handleDisconnectFS (s : FSState) : FSState :=
  { s with mainTimeoutPending := false, isTyping := false }

/-- Dispatch of an incoming socket event to `FutureSelfInterface`'s
registered listeners (`receive_message`, `typing`, `error`, `connect`,
`disconnect`); `connect` only logs. -/
def dispatchFSEvent (event : String) (p : SocketPayload) (idv : Nat) (ts : String)
    (now : Nat) (s : FSState) : FSState :=
  if event = "receive_message" then handleReceiveMessage p idv ts now s
  else if event = "typing" then { s with isTyping := p.status == "start" }
  else if event = "error" then handleErrorFS p.error idv ts now s
  else if event = "disconnect" then handleDisconnectFS s
  else s

/-- A concrete `FutureSelfInterface` state with a pending input, used as a
test input. -/
def fsState0 : FSState :=
  { messages := [], messageHistory := [], messageCount := 0, lastActivity := 0,
    isTyping := false, messageInput := "hi", chatMode := "normal",
    aiPersonality := "encouraging", mainTimeoutPending := false,
    checkTimeoutPending := false, fallbackPending := false }

/-! ## FuturisticResumeUpload — file validation (`handleFileUpload`) -/

/-- `allowedTypes` in `handleFileUpload`. -/
def allowedResumeTypes : List String :=
  ["application/pdf",
   "application/vnd.openxmlformats-officedocument.wordprocessingml.document",
   "text/plain"]

/-- The fields of a selected `File` that `handleFileUpload` inspects. -/
structure JsFile where
  type : String
  size : Nat
deriving Repr, DecidableEq

/-- What `handleFileUpload` does before any network traffic: nothing (empty
selection), set an error, or issue the analyze-resume POST (30 s timeout). -/
inductive UploadOutcome where
  | noop
  | rejected (errMsg : String)
  | request (timeoutMs : Nat)
deriving Repr, DecidableEq

/-- `handleFileUpload(files)`: validates `files[0]`'s MIME type and size
(10 MB limit) and only then posts the file to the analyze-resume endpoint. -/
def handleFileUpload : List JsFile → UploadOutcome
  | [] => .noop
  | f :: _ =>
    if f.type ∉ allowedResumeTypes then
      .rejected "Please upload a PDF, DOCX, or TXT file"
    else if f.size > 10 * 1024 * 1024 then
      .rejected "File size must be less than 10MB"
    else
      .request 30000

/-! ## App component (the wizard) -/

/-- The persona fields the frontend reads (`data.persona`). -/
structure Persona where
  name : String
  current_role : String
  career_path : String
deriving Repr, DecidableEq

/-- The analyze-resume response fields `handleResumeUpload` inspects. -/
structure ResumeResponse where
  success : Bool
  session_id : Option String
  persona : Option Persona
deriving Repr, DecidableEq

/-- The `useState` state of `App`. -/
structure AppState where
  currentStep : String
  sessionId : Option String
  resumeAnalysis : Option ResumeResponse
  persona : Option Persona
  error : Option String
deriving Repr, DecidableEq

/-- Initial `App` state. -/
def appInit : AppState :=
  { currentStep := "welcome", sessionId := none, resumeAnalysis := none,
    persona := none, error := none }

/-- `handleResumeUpload(data)`: on `data.success && data.session_id`, store
session id, analysis and persona and jump to the dashboard; otherwise set an
error. -/
def handleResumeUpload (data : ResumeResponse) (s : AppState) : AppState :=
  if data.success && jsTruthyStr data.session_id then
    { s with sessionId := data.session_id,
             resumeAnalysis := some data,
             persona := data.persona,
             currentStep := "dashboard" }
  else
    { s with error := some "Failed to process resume. Missing session or persona." }

/-- `handleStartChat`: requires session id and persona, else bounce to the
resume step with an error. -/
def handleStartChat (s : AppState) : AppState :=
  if !jsTruthyStr s.sessionId || s.persona.isNone then
    { s with error := some "Please upload your resume first", currentStep := "resume" }
  else
    { s with currentStep := "chat" }

/-- `handleBack`. -/
def handleBack (s : AppState) : AppState :=
  if s.currentStep = "chat" then { s with currentStep := "dashboard" }
  else if s.currentStep = "dashboard" then { s with currentStep := "resume" }
  else { s with currentStep := "welcome" }

/-- `handleNext`. -/
def handleNext (s : AppState) : AppState :=
  if s.currentStep = "welcome" then { s with currentStep := "resume" }
  else if s.currentStep = "resume" ∧ s.resumeAnalysis.isSome then
    { s with currentStep := "dashboard" }
  else if s.currentStep = "dashboard" ∧ jsTruthyStr s.sessionId ∧ s.persona.isSome then
    { s with currentStep := "chat" }
  else s

/-- The inline `onNext` passed to the resume step. -/
def resumeStepNext (s : AppState) : AppState :=
  if s.resumeAnalysis.isSome then { s with currentStep := "dashboard" }
  else { s with error := some "Please upload and analyze your resume first" }

/-- The Navbar's `onConnect` callback. -/
def navbarConnect (s : AppState) : AppState :=
  { s with currentStep := "resume" }

/-- The `✕` button of App's error banner: `setError(null)`. -/
def dismissAppError (s : AppState) : AppState := { s with error := none }

/-- The step sequence asserted by the spec's frontend-view-layer sentence
(written from the spec's words, for comparison against the code). -/
def claimedNextStep : String → Option String
  | "upload" => some "resume"
  | "resume" => some "career pick"
  | "career pick" => some "dashboard"
  | "dashboard" => some "chat"
  | _ => none

/-- A concrete persona used as a test input. -/
def personaEx : Persona :=
  { name := "Alex", current_role := "Senior Engineer", career_path := "software_engineer" }

/-- A concrete successful analyze-resume response used as a test input. -/
def resumeRespEx : ResumeResponse :=
  { success := true, session_id := some "s1", persona := some personaEx }

/-- A concrete `App` state sitting at the resume step with an analysis
present, used as a test input. -/
def appResumeEx : AppState :=
  { currentStep := "resume", sessionId := some "s1",
    resumeAnalysis := some resumeRespEx, persona := some personaEx, error := none }

/-! ## Skills-gap analysis (backend) -/

/-- Modelled from the spec: the Flask backend holding the skills-gap
endpoint is not under src (only its Dockerfile and the frontend are
present).  Per the spec, `career_match` carries matched/missing skills for
the analyzed career: the skills the gap analysis examines are split into
those found among the resume's skills (`matched_skills`) and those not
found (`missing_skills`, the frontend's "Skills to Develop"). -/
def careerMatchGap (analyzedSkills userSkills : List String) :
    List String × List String :=
  (analyzedSkills.filter (fun sk => decide (sk ∈ userSkills)),
   analyzedSkills.filter (fun sk => decide (sk ∉ userSkills)))

/-! ## Helper lemmas -/

lemma sendViaHttp_messages (outcome : HttpOutcome) (t : Nat) (s : ChatState) :
    (sendViaHttp outcome t s).messages = s.messages ∨
    ∃ resp, (sendViaHttp outcome t s).messages = s.messages ++ [⟨"assistant", resp, t⟩] := by
  cases outcome with
  | ok success resp err =>
    by_cases h : (success && resp != "") = true
    · exact Or.inr ⟨resp, by simp [sendViaHttp, h]⟩
    · left
      simp only [sendViaHttp, h]
      simp
  | exn e => exact Or.inl rfl

lemma handleSendMessage_messages_some (sid : String) (career : Option String)
    (conn : Bool) (outcome : HttpOutcome) (t1 t2 : Nat) (msg : String)
    (s : ChatState) (hmsg : jsTrim msg ≠ "") :
    (handleSendMessage (some sid) career conn outcome t1 t2 msg s).1.messages
        = s.messages ++ [⟨"user", msg, t1⟩] ∨
    ∃ resp, (handleSendMessage (some sid) career conn outcome t1 t2 msg s).1.messages
        = s.messages ++ [⟨"user", msg, t1⟩, ⟨"assistant", resp, t2⟩] := by
  unfold handleSendMessage
  rw [if_neg hmsg]
  cases conn with
  | true => left; rfl
  | false =>
    rcases sendViaHttp_messages outcome t2
        { s with showQuickQuestions := false,
                 messages := s.messages ++ [⟨"user", msg, t1⟩],
                 isTyping := true, error := none } with h | ⟨resp, h⟩
    · left; simpa using h
    · right; exact ⟨resp, by simpa [List.append_assoc] using h⟩

lemma handleSendMessage_messages_cases (sid : Option String) (career : Option String)
    (conn : Bool) (outcome : HttpOutcome) (t1 t2 : Nat) (msg : String) (s : ChatState) :
    (handleSendMessage sid career conn outcome t1 t2 msg s).1.messages = s.messages ∨
    (handleSendMessage sid career conn outcome t1 t2 msg s).1.messages
        = s.messages ++ [⟨"user", msg, t1⟩] ∨
    ∃ resp, (handleSendMessage sid career conn outcome t1 t2 msg s).1.messages
        = s.messages ++ [⟨"user", msg, t1⟩, ⟨"assistant", resp, t2⟩] := by
  by_cases hmsg : jsTrim msg = ""
  · left; simp [handleSendMessage, hmsg]
  · cases sid with
    | none => left; simp [handleSendMessage, hmsg]
    | some sid =>
      rcases handleSendMessage_messages_some sid career conn outcome t1 t2 msg s hmsg with h | h
      · exact Or.inr (Or.inl h)
      · exact Or.inr (Or.inr h)

lemma dispatchChatEvent_messages (sid : Option String) (evt : String)
    (p : SocketPayload) (t : Nat) (s : ChatState) :
    (dispatchChatEvent sid evt p t s).1.messages = s.messages ∨
    (dispatchChatEvent sid evt p t s).1.messages
        = s.messages ++ [⟨"assistant", p.response, t⟩] := by
  unfold dispatchChatEvent
  split_ifs <;>
    simp [onConnect, onDisconnect, onConnectError, onAiResponse, onTypingEvent,
      onSocketError]

/-! ## Claims -/

/-- C1: for every non-blank chat message sent while no session exists,
`handleSendMessage` surfaces the error
"Session not found. Please upload your resume first." and returns without
appending to the message list, without setting the typing indicator, and
without emitting any socket or HTTP request. -/
theorem send_without_session_only_errors (careerPath : Option String)
    (conn : Bool) (outcome : HttpOutcome) (t1 t2 : Nat) (msg : String)
    (s : ChatState) (hmsg : jsTrim msg ≠ "") :
    (handleSendMessage none careerPath conn outcome t1 t2 msg s).1.error
        = some "Session not found. Please upload your resume first." ∧
    (handleSendMessage none careerPath conn outcome t1 t2 msg s).1.messages = s.messages ∧
    (handleSendMessage none careerPath conn outcome t1 t2 msg s).1.isTyping = s.isTyping ∧
    (handleSendMessage none careerPath conn outcome t1 t2 msg s).2 = [] := by
  simp [handleSendMessage, hmsg]

/-- Witness for C1 at a concrete input. -/
theorem send_without_session_only_errors_witness :
    jsTrim "hi" ≠ "" ∧
    ((handleSendMessage none none true (.ok true "r" none) 0 1 "hi" chatState0).1.error
        = some "Session not found. Please upload your resume first." ∧
     (handleSendMessage none none true (.ok true "r" none) 0 1 "hi" chatState0).1.messages
        = chatState0.messages ∧
     (handleSendMessage none none true (.ok true "r" none) 0 1 "hi" chatState0).1.isTyping
        = chatState0.isTyping ∧
     (handleSendMessage none none true (.ok true "r" none) 0 1 "hi" chatState0).2 = []) :=
  ⟨by decide,
   send_without_session_only_errors none true (.ok true "r" none) 0 1 "hi" chatState0 (by decide)⟩

/-- C4 (spec-modelled, backend absent from src): the skills-gap analysis
returns matched and missing skill sets that are disjoint, and their union is
the set of analyzed skills. -/
theorem skills_gap_partition (analyzed user : List String) :
    (∀ sk, sk ∈ (careerMatchGap analyzed user).1 → sk ∉ (careerMatchGap analyzed user).2) ∧
    (∀ sk, sk ∈ analyzed ↔
       sk ∈ (careerMatchGap analyzed user).1 ∨ sk ∈ (careerMatchGap analyzed user).2) := by
  constructor
  · intro sk h1 h2
    simp only [careerMatchGap, List.mem_filter, decide_eq_true_eq] at h1 h2
    exact h2.2 h1.2
  · intro sk
    simp only [careerMatchGap, List.mem_filter, decide_eq_true_eq]
    by_cases h : sk ∈ user <;> simp [h]

/-- Witness for C4 at a concrete input. -/
theorem skills_gap_partition_witness :
    "python" ∉ (careerMatchGap ["python", "docker"] ["python"]).2 ∧
    ("docker" ∈ (["python", "docker"] : List String) ↔
      "docker" ∈ (careerMatchGap ["python", "docker"] ["python"]).1 ∨
      "docker" ∈ (careerMatchGap ["python", "docker"] ["python"]).2) :=
  ⟨(skills_gap_partition ["python", "docker"] ["python"]).1 "python" (by decide),
   (skills_gap_partition ["python", "docker"] ["python"]).2 "docker"⟩

/-- C5 counterexample: the wizard has no "career pick" step after the resume
step; with an analysis present, `handleNext` at the resume step goes
straight to the dashboard. -/
theorem wizard_claimed_order_fails :
    claimedNextStep "resume" = some "career pick" ∧
    (handleNext appResumeEx).currentStep = "dashboard" ∧
    some (handleNext appResumeEx).currentStep ≠ claimedNextStep "resume" := by
  refine ⟨rfl, ?_, ?_⟩ <;> decide

/-- C5 (amended): the wizard advances welcome → resume (upload) → dashboard
→ chat; `handleNext` moves one step forward (subject to its data being
present, and staying put at the final chat step), and `handleBack` moves one
step back (with the resume and welcome steps both going back to welcome). -/
theorem wizard_step_navigation (s : AppState) :
    (s.currentStep = "welcome" → (handleNext s).currentStep = "resume") ∧
    (s.currentStep = "resume" → s.resumeAnalysis.isSome →
        (handleNext s).currentStep = "dashboard") ∧
    (s.currentStep = "dashboard" → jsTruthyStr s.sessionId = true → s.persona.isSome →
        (handleNext s).currentStep = "chat") ∧
    (s.currentStep = "chat" → handleNext s = s) ∧
    (s.currentStep = "chat" → (handleBack s).currentStep = "dashboard") ∧
    (s.currentStep = "dashboard" → (handleBack s).currentStep = "resume") ∧
    (s.currentStep ≠ "chat" → s.currentStep ≠ "dashboard" →
        (handleBack s).currentStep = "welcome") := by
  refine ⟨?_, ?_, ?_, ?_, ?_, ?_, ?_⟩
  · intro h; simp [handleNext, h]
  · intro h hr; simp [handleNext, h, hr]
  · intro h hs hp; simp [handleNext, h, hs, hp]
  · intro h; simp [handleNext, h]
  · intro h; simp [handleBack, h]
  · intro h; simp [handleBack, h]
  · intro h1 h2; simp [handleBack, h1, h2]

/-- Witness for C5 (amended) at a concrete input. -/
theorem wizard_step_navigation_witness :
    ((handleNext appResumeEx).currentStep = "dashboard" ∧
     (handleBack appResumeEx).currentStep = "welcome" ∧
     (handleNext appInit).currentStep = "resume") :=
  ⟨(wizard_step_navigation appResumeEx).2.1 rfl (by decide),
   (wizard_step_navigation appResumeEx).2.2.2.2.2.2 (by decide) (by decide),
   (wizard_step_navigation appInit).1 rfl⟩

/-- C6: the stored persona is assigned only by `handleResumeUpload` on a
successful analysis response carrying a session id; every navigation,
dashboard and chat-related App operation leaves it unchanged (the chat and
dashboard components receive the persona as a read-only prop and own no
setter for it). -/
theorem persona_assigned_only_on_upload (s : AppState) (d : ResumeResponse) :
    (handleBack s).persona = s.persona ∧
    (handleNext s).persona = s.persona ∧
    (handleStartChat s).persona = s.persona ∧
    (resumeStepNext s).persona = s.persona ∧
    (navbarConnect s).persona = s.persona ∧
    (dismissAppError s).persona = s.persona ∧
    (d.success = true → jsTruthyStr d.session_id = true →
        (handleResumeUpload d s).persona = d.persona) ∧
    (¬(d.success = true ∧ jsTruthyStr d.session_id = true) →
        (handleResumeUpload d s).persona = s.persona) := by
  refine ⟨?_, ?_, ?_, ?_, rfl, rfl, ?_, ?_⟩
  · unfold handleBack; split_ifs <;> rfl
  · unfold handleNext; split_ifs <;> rfl
  · unfold handleStartChat; split_ifs <;> rfl
  · unfold resumeStepNext; split_ifs <;> rfl
  · intro hs hid; simp [handleResumeUpload, hs, hid]
  · intro h
    unfold handleResumeUpload
    rw [if_neg]
    intro hc
    exact h ⟨by simpa using (Bool.and_elim_left hc), by simpa using (Bool.and_elim_right hc)⟩

/-- Witness for C6 at a concrete input. -/
theorem persona_assigned_only_on_upload_witness :
    (handleBack appResumeEx).persona = appResumeEx.persona ∧
    (handleResumeUpload resumeRespEx appInit).persona = resumeRespEx.persona ∧
    (handleResumeUpload ⟨false, some "s1", some personaEx⟩ appInit).persona = appInit.persona :=
  ⟨(persona_assigned_only_on_upload appResumeEx resumeRespEx).1,
   (persona_assigned_only_on_upload appInit resumeRespEx).2.2.2.2.2.2.1 rfl (by decide),
   (persona_assigned_only_on_upload appInit ⟨false, some "s1", some personaEx⟩).2.2.2.2.2.2.2
     (by simp)⟩

/-- C8: a socket `error` event stores the event's message — or the default
"An error occurred. Please try again." when it carries none (or an empty
one) — as the displayed error, the error banner is rendered exactly while an
error is stored and its `✕` button clears it, and the typing indicator is
cleared. -/
theorem socket_error_event_banner (err : Option String) (s : ChatState) :
    (∀ m, err = some m → m ≠ "" → (onSocketError err s).error = some m) ∧
    ((err = none ∨ err = some "") →
        (onSocketError err s).error = some "An error occurred. Please try again.") ∧
    (onSocketError err s).isTyping = false ∧
    errorBannerVisible (onSocketError err s) = true ∧
    (dismissError (onSocketError err s)).error = none ∧
    errorBannerVisible (dismissError (onSocketError err s)) = false := by
  refine ⟨?_, ?_, rfl, rfl, rfl, rfl⟩
  · rintro m rfl hm
    simp [onSocketError, jsOr, hm]
  · rintro (rfl | rfl) <;> simp [onSocketError, jsOr]

/-- Witness for C8 at a concrete input. -/
theorem socket_error_event_banner_witness :
    (onSocketError (some "boom") chatState0).error = some "boom" ∧
    (onSocketError none chatState0).error = some "An error occurred. Please try again." ∧
    (onSocketError (some "boom") chatState0).isTyping = false :=
  ⟨(socket_error_event_banner (some "boom") chatState0).1 "boom" rfl (by decide),
   (socket_error_event_banner none chatState0).2.1 (Or.inl rfl),
   (socket_error_event_banner (some "boom") chatState0).2.2.1⟩

/-- C9: for a selected file, the analyze-resume request is issued exactly
when the MIME type is PDF, DOCX or plain text and the size is at most
10 * 1024 * 1024 bytes; any other file only sets an error message. -/
theorem resume_upload_validation (f : JsFile) (rest : List JsFile) :
    (handleFileUpload (f :: rest) = .request 30000 ↔
       f.type ∈ allowedResumeTypes ∧ f.size ≤ 10 * 1024 * 1024) ∧
    (f.type ∉ allowedResumeTypes ∨ f.size > 10 * 1024 * 1024 →
       ∃ m, handleFileUpload (f :: rest) = .rejected m) := by
  by_cases h1 : f.type ∈ allowedResumeTypes
  · by_cases h2 : f.size ≤ 10 * 1024 * 1024
    · have hs : ¬(f.size > 10 * 1024 * 1024) := by omega
      refine ⟨?_, ?_⟩
      · simp [handleFileUpload, h1, hs, h2]
      · intro h
        rcases h with hmem | hsize
        · exact absurd h1 hmem
        · omega
    · have hs : f.size > 10 * 1024 * 1024 := by omega
      refine ⟨?_, ?_⟩
      · simp [handleFileUpload, h1, hs]
      · intro _
        exact ⟨"File size must be less than 10MB", by simp [handleFileUpload, h1, hs]⟩
  · refine ⟨?_, ?_⟩
    · simp [handleFileUpload, h1]
    · intro _
      exact ⟨"Please upload a PDF, DOCX, or TXT file", by simp [handleFileUpload, h1]⟩

/-- Witness for C9 at a concrete input. -/
theorem resume_upload_validation_witness :
    (handleFileUpload [⟨"application/pdf", 1000⟩] = .request 30000 ↔
       "application/pdf" ∈ allowedResumeTypes ∧ 1000 ≤ 10 * 1024 * 1024) ∧
    ∃ m, handleFileUpload [⟨"image/png", 1000⟩] = .rejected m :=
  ⟨(resume_upload_validation ⟨"application/pdf", 1000⟩ []).1,
   (resume_upload_validation ⟨"image/png", 1000⟩ []).2 (Or.inl (by decide))⟩

/-- The success test of `sendViaHttp`: `response.data.success &&
response.data.response`. -/
def httpOk : HttpOutcome → Bool
  | .ok success resp _ => success && resp != ""
  | .exn _ => false

/-- C10: a non-empty message sent with a session but no connected socket
goes out as a single HTTP POST to the chat endpoint with a 15000 ms timeout;
a response with `success` and a response text appends exactly one assistant
message (after the user entry) and clears the error, any other outcome sets
a user-visible error, and the typing indicator ends cleared either way. -/
theorem http_fallback_behavior (sid : String) (careerPath : Option String)
    (outcome : HttpOutcome) (t1 t2 : Nat) (msg : String) (s : ChatState)
    (hmsg : jsTrim msg ≠ "") :
    (handleSendMessage (some sid) careerPath false outcome t1 t2 msg s).2
        = [ChatEffect.httpPost (API_URL ++ "/chat") msg sid 15000] ∧
    (handleSendMessage (some sid) careerPath false outcome t1 t2 msg s).1.isTyping = false ∧
    (∀ resp err, outcome = HttpOutcome.ok true resp err → resp ≠ "" →
        (handleSendMessage (some sid) careerPath false outcome t1 t2 msg s).1.messages
          = s.messages ++ [⟨"user", msg, t1⟩, ⟨"assistant", resp, t2⟩] ∧
        (handleSendMessage (some sid) careerPath false outcome t1 t2 msg s).1.error = none) ∧
    (httpOk outcome = false →
        ∃ m, (handleSendMessage (some sid) careerPath false outcome t1 t2 msg s).1.error
          = some m) := by
  refine ⟨?_, ?_, ?_, ?_⟩
  · simp [handleSendMessage, hmsg]
  · unfold handleSendMessage
    rw [if_neg hmsg]
    cases outcome with
    | ok success resp err =>
      by_cases h : (success && resp != "") = true <;>
        simp [sendViaHttp, h]
    | exn e => simp [sendViaHttp, handleSendError]
  · rintro resp err rfl hresp
    have h : (true && resp != "") = true := by simp [hresp]
    unfold handleSendMessage
    rw [if_neg hmsg]
    simp [sendViaHttp, h]
  · intro hfail
    unfold handleSendMessage
    rw [if_neg hmsg]
    cases outcome with
    | ok success resp err =>
      have h : (success && resp != "") = false := by simpa [httpOk] using hfail
      simp [sendViaHttp, h]
    | exn e => exact ⟨sendErrorMessage e, by simp [sendViaHttp, handleSendError]⟩

/-- Witness for C10 at a concrete input. -/
theorem http_fallback_behavior_witness :
    (handleSendMessage (some "s1") none false (.ok true "ok!" none) 3 4 "hi" chatState0).2
        = [ChatEffect.httpPost (API_URL ++ "/chat") "hi" "s1" 15000] ∧
    (handleSendMessage (some "s1") none false (.ok true "ok!" none) 3 4 "hi" chatState0).1.messages
        = chatState0.messages ++ [⟨"user", "hi", 3⟩, ⟨"assistant", "ok!", 4⟩] :=
  ⟨(http_fallback_behavior "s1" none (.ok true "ok!" none) 3 4 "hi" chatState0 (by decide)).1,
   ((http_fallback_behavior "s1" none (.ok true "ok!" none) 3 4 "hi" chatState0
       (by decide)).2.2.1 "ok!" none rfl (by decide)).1⟩

/-- C7: every conversation entry has shape `{role, content, timestamp}`
(the `Message` structure) with role `user` or `assistant`; the history is
append-only under every chat operation; a non-empty send with a session
appends exactly one `user` entry; and every `ai_response` reply appends
exactly one `assistant` entry at the end. -/
theorem chat_history_shape_and_append_only :
    (∀ (op : ChatOp) (s : ChatState),
        ∃ tail, (applyChatOp op s).messages = s.messages ++ tail) ∧
    (∀ (op : ChatOp) (s : ChatState),
        (∀ m ∈ s.messages, m.role = "user" ∨ m.role = "assistant") →
        ∀ m ∈ (applyChatOp op s).messages, m.role = "user" ∨ m.role = "assistant") ∧
    (∀ (sid : String) (career : Option String) (conn : Bool) (outcome : HttpOutcome)
        (t1 t2 : Nat) (msg : String) (s : ChatState), jsTrim msg ≠ "" →
        ((applyChatOp (.send (some sid) career conn outcome t1 t2 msg) s).messages.countP
            (fun m => m.role == "user"))
          = (s.messages.countP (fun m => m.role == "user")) + 1) ∧
    (∀ (sid : Option String) (p : SocketPayload) (t : Nat) (s : ChatState),
        (applyChatOp (.socketEvt sid "ai_response" p t) s).messages
          = s.messages ++ [⟨"assistant", p.response, t⟩]) := by
  refine ⟨?_, ?_, ?_, ?_⟩
  · intro op s
    cases op with
    | send sid career conn outcome t1 t2 msg =>
      rcases handleSendMessage_messages_cases sid career conn outcome t1 t2 msg s with
        h | h | ⟨resp, h⟩
      · exact ⟨[], by simpa using h⟩
      · exact ⟨_, h⟩
      · exact ⟨_, h⟩
    | socketEvt sid evt p t =>
      rcases dispatchChatEvent_messages sid evt p t s with h | h
      · exact ⟨[], by simpa using h⟩
      · exact ⟨_, h⟩
    | dismiss => exact ⟨[], by simp [applyChatOp, dismissError]⟩
  · intro op s hroles m hm
    cases op with
    | send sid career conn outcome t1 t2 msg =>
      simp only [applyChatOp] at hm
      rcases handleSendMessage_messages_cases sid career conn outcome t1 t2 msg s with
        h | h | ⟨resp, h⟩ <;> rw [h] at hm
      · exact hroles m hm
      · rcases List.mem_append.mp hm with h' | h'
        · exact hroles m h'
        · left; simpa using congrArg Message.role (List.mem_singleton.mp h')
      · rcases List.mem_append.mp hm with h' | h'
        · exact hroles m h'
        · rcases List.mem_cons.mp h' with h1 | h1
          · left; rw [h1]
          · right; simpa using congrArg Message.role (List.mem_singleton.mp h1)
    | socketEvt sid evt p t =>
      simp only [applyChatOp] at hm
      rcases dispatchChatEvent_messages sid evt p t s with h | h <;> rw [h] at hm
      · exact hroles m hm
      · rcases List.mem_append.mp hm with h' | h'
        · exact hroles m h'
        · right; simpa using congrArg Message.role (List.mem_singleton.mp h')
    | dismiss =>
      simp only [applyChatOp, dismissError] at hm
      exact hroles m hm
  · intro sid career conn outcome t1 t2 msg s hmsg
    rcases handleSendMessage_messages_some sid career conn outcome t1 t2 msg s hmsg with
      h | ⟨resp, h⟩ <;>
      simp [applyChatOp, h, List.countP_append, List.countP_cons]
  · intro sid p t s
    cases sid <;>
      simp [applyChatOp, dispatchChatEvent, onAiResponse]

/-- Witness for C7 at a concrete input. -/
theorem chat_history_shape_and_append_only_witness :
    (∃ tail, (applyChatOp .dismiss chatState0).messages = chatState0.messages ++ tail) ∧
    ((applyChatOp (.send (some "s1") none true (.ok true "r" none) 0 1 "hi") chatState0).messages.countP
        (fun m => m.role == "user"))
      = (chatState0.messages.countP (fun m => m.role == "user")) + 1 :=
  ⟨chat_history_shape_and_append_only.1 .dismiss chatState0,
   chat_history_shape_and_append_only.2.2.1 "s1" none true (.ok true "r" none) 0 1 "hi"
     chatState0 (by decide)⟩

/-- C2: after a connected-socket send, the 20-second timer is pending and
firing it appends the canned reply and clears the typing indicator; a
`receive_message`, `error` or `disconnect` arriving first clears the pending
timer, after which the timer callback is a no-op and no canned message is
ever appended. -/
theorem canned_timeout_fallback (sessionId : String) (conversationId : Option String)
    (career : String) (idv idv2 idv3 : Nat) (ts ts2 ts3 : String) (now now2 now3 : Nat)
    (p : SocketPayload) (err : Option String) (s s1 : FSState)
    (hmsg : jsTrim s.messageInput ≠ "")
    (hs1 : s1 = (sendMessageFS sessionId conversationId career true idv ts now s).1) :
    s1.mainTimeoutPending = true ∧
    (fireMainTimeout idv2 ts2 now2 s1).isTyping = false ∧
    (fireMainTimeout idv2 ts2 now2 s1).messages
        = s1.messages ++ [⟨canned20sMessage, "future-self", idv2, ts2, s1.chatMode, s1.aiPersonality⟩] ∧
    (handleReceiveMessage p idv2 ts2 now2 s1).mainTimeoutPending = false ∧
    fireMainTimeout idv3 ts3 now3 (handleReceiveMessage p idv2 ts2 now2 s1)
        = handleReceiveMessage p idv2 ts2 now2 s1 ∧
    (handleErrorFS err idv2 ts2 now2 s1).mainTimeoutPending = false ∧
    fireMainTimeout idv3 ts3 now3 (handleErrorFS err idv2 ts2 now2 s1)
        = handleErrorFS err idv2 ts2 now2 s1 ∧
    (handleDisconnectFS s1).mainTimeoutPending = false ∧
    fireMainTimeout idv3 ts3 now3 (handleDisconnectFS s1) = handleDisconnectFS s1 := by
  subst hs1
  unfold sendMessageFS
  rw [if_neg hmsg]
  simp [fireMainTimeout, handleReceiveMessage, handleErrorFS, handleDisconnectFS, addMessage]

/-- Witness for C2 at a concrete input. -/
theorem canned_timeout_fallback_witness :
    (sendMessageFS "s1" none "software_engineer" true 1 "t1" 1 fsState0).1.mainTimeoutPending
        = true ∧
    fireMainTimeout 3 "t3" 3
        (handleReceiveMessage ⟨"r", "", none, "r"⟩ 2 "t2" 2
          (sendMessageFS "s1" none "software_engineer" true 1 "t1" 1 fsState0).1)
      = handleReceiveMessage ⟨"r", "", none, "r"⟩ 2 "t2" 2
          (sendMessageFS "s1" none "software_engineer" true 1 "t1" 1 fsState0).1 := by
  have h := canned_timeout_fallback "s1" none "software_engineer" 1 2 3 "t1" "t2" "t3" 1 2 3
    ⟨"r", "", none, "r"⟩ none fsState0
    (sendMessageFS "s1" none "software_engineer" true 1 "t1" 1 fsState0).1
    (by decide) rfl
  exact ⟨h.1, h.2.2.2.2.1⟩

/-- Payload used to probe the `receive_message` event on `FuturisticChat`. -/
def payloadEx : SocketPayload :=
  { response := "hello", status := "start", error := none, message := "hello" }

/-- C3 counterexample: `FuturisticChat` registers no `receive_message`
handler, so a `receive_message` event delivered to it appends nothing and
leaves the typing indicator running — it receives AI replies on
`ai_response` instead. -/
theorem receive_message_event_has_no_chat_handler :
    (dispatchChatEvent (some "s1") "receive_message" payloadEx 5 chatState0).1.messages
        = chatState0.messages ∧
    (dispatchChatEvent (some "s1") "receive_message" payloadEx 5 chatState0).1.isTyping = true ∧
    chatState0.messages = [] ∧ chatState0.isTyping = true := by
  refine ⟨?_, ?_, rfl, rfl⟩ <;> decide

/-- C3 (amended): each chat component receives AI replies on its own socket
event — `FutureSelfInterface` on `receive_message`, appending the reply as a
`future-self` message and stopping the typing indicator, and
`FuturisticChat` on `ai_response`, appending the reply as an `assistant`
message and stopping the typing indicator. -/
theorem ai_reply_events_append_and_stop_typing (sid : Option String) (p : SocketPayload)
    (t : Nat) (s : ChatState) (idv : Nat) (ts : String) (now : Nat) (fs : FSState) :
    (dispatchChatEvent sid "ai_response" p t s).1.messages
        = s.messages ++ [⟨"assistant", p.response, t⟩] ∧
    (dispatchChatEvent sid "ai_response" p t s).1.isTyping = false ∧
    (dispatchFSEvent "receive_message" p idv ts now fs).messages
        = fs.messages ++ [⟨p.message, "future-self", idv, ts, fs.chatMode, fs.aiPersonality⟩] ∧
    (dispatchFSEvent "receive_message" p idv ts now fs).isTyping = false := by
  refine ⟨?_, ?_, ?_, ?_⟩ <;>
    simp [dispatchChatEvent, dispatchFSEvent, onAiResponse, handleReceiveMessage, addMessage]
